import Mathlib

/-!
# Verification of the GBIF occurrence-curation pipeline

Shallow embedding of `gbifcurador.py` and `vsSHP_BUFFER.py`.

Modelling conventions:
* A pandas DataFrame is a `List` of records; filtering, mapping and
  deduplication on lists mirror the corresponding pandas operations.
* A Python float stored in a coordinate column is modelled by `PyFloat`: its
  numeric value as an exact rational `q` together with its default textual
  rendering `s` (the result of Python `str`).  Coordinate rounding is exact
  decimal rounding with the half-even tie rule used by `numpy.round`.
* The cell of the `eventDate` column is a `DateVal`: a raw unparsed value, a
  parsed timestamp (a day number, `Int`), or the missing value `NaT`.
* External collaborators (the GBIF occurrence search, `pd.to_datetime`,
  Python's float rendering, the Nominatim reverse geocoder, the GBIF taxonomic
  backbone, shapely polygon containment) are oracle parameters of the
  functions that call them.
* The unbounded `while True` pagination loop of `fetch_all_gbif_data` is
  embedded with an explicit fuel argument; theorems about it assume enough
  fuel for the run they describe.
* `pd.DataFrame(l)` applied to a Python list is modelled by `PyFrame`: the
  rows plus a flag recording whether the frame has a column schema
  (`pd.DataFrame([])` has no columns, so a later column access raises
  `KeyError`).  Operations that access columns return `Except String`.
-/

/-- A Python float (or int) sitting in a numeric column: exact rational value
`q` plus its default textual rendering `s` (what `str(value)` returns). -/
structure PyFloat where
  s : String
  q : ℚ
  deriving DecidableEq

/-- A cell of the `eventDate` column: a raw unparsed value, a parsed
timestamp (day number), or the missing value `NaT`. -/
inductive DateVal where
  | raw (s : String)
  | ts (d : Int)
  | nat
  deriving DecidableEq

/-- The nine columns selected by `initial_cleaning` (gbifcurador.py line 32). -/
structure Row where
  species : String
  decimalLatitude : PyFloat
  decimalLongitude : PyFloat
  country : String
  eventDate : DateVal
  basisOfRecord : String
  institutionCode : String
  identificationID : String
  identifiedBy : String
  deriving DecidableEq

/-- A record as returned by the GBIF occurrence search: the nine curated
columns plus arbitrary further columns. -/
structure RawRecord where
  core : Row
  extra : List (String × String)
  deriving DecidableEq

/-- Embeds a nine-column row back into a raw record with no extra columns. -/
def rawOfRow (r : Row) : RawRecord := ⟨r, []⟩

/-- A row after `enrich_data` added the constant `dataSource` column. -/
abbrev EnrichedRow := Row × String

/-! ## Deduplication (pandas `drop_duplicates` / `Series.unique`)

Both keep the first occurrence of each value and preserve first-seen order. -/

/-- Core of first-seen deduplication: drop the elements already in `seen`. -/
def dedupFirstAux {α : Type} [DecidableEq α] (seen : List α) : List α → List α
  | [] => []
  | x :: xs =>
    if x ∈ seen then dedupFirstAux seen xs
    else x :: dedupFirstAux (x :: seen) xs

/-- First-seen deduplication, as performed by `DataFrame.drop_duplicates`
and `Series.unique`. -/
def dedupFirst {α : Type} [DecidableEq α] (l : List α) : List α :=
  dedupFirstAux [] l

theorem mem_dedupFirstAux {α : Type} [DecidableEq α] (l : List α) :
    ∀ (seen : List α) (a : α),
      a ∈ dedupFirstAux seen l ↔ a ∈ l ∧ a ∉ seen := by
  induction l with
  | nil => intro seen a; simp [dedupFirstAux]
  | cons x xs ih =>
    intro seen a
    by_cases hx : x ∈ seen
    · rw [dedupFirstAux, if_pos hx, ih]
      constructor
      · rintro ⟨h1, h2⟩; exact ⟨List.mem_cons_of_mem _ h1, h2⟩
      · rintro ⟨h1, h2⟩
        rcases List.mem_cons.mp h1 with h | h
        · exact absurd (h ▸ hx) h2
        · exact ⟨h, h2⟩
    · rw [dedupFirstAux, if_neg hx]
      constructor
      · intro h
        rcases List.mem_cons.mp h with h | h
        · exact ⟨h ▸ List.mem_cons_self x xs, h ▸ hx⟩
        · rcases (ih (x :: seen) a).mp h with ⟨h1, h2⟩
          refine ⟨List.mem_cons_of_mem _ h1, fun hs => h2 ?_⟩
          exact List.mem_cons_of_mem _ hs
      · rintro ⟨h1, h2⟩
        rcases List.mem_cons.mp h1 with h | h
        · exact h ▸ List.mem_cons_self _ _
        · by_cases hax : a = x
          · exact hax ▸ List.mem_cons_self _ _
          · refine List.mem_cons_of_mem _ ((ih (x :: seen) a).mpr ⟨h, ?_⟩)
            intro hs
            rcases List.mem_cons.mp hs with h' | h'
            · exact hax h'
            · exact h2 h'

theorem mem_dedupFirst {α : Type} [DecidableEq α] (l : List α) (a : α) :
    a ∈ dedupFirst l ↔ a ∈ l := by
  rw [dedupFirst, mem_dedupFirstAux]
  simp

theorem nodup_dedupFirstAux {α : Type} [DecidableEq α] (l : List α) :
    ∀ seen : List α, (dedupFirstAux seen l).Nodup := by
  induction l with
  | nil => intro seen; simp [dedupFirstAux]
  | cons x xs ih =>
    intro seen
    by_cases hx : x ∈ seen
    · rw [dedupFirstAux, if_pos hx]; exact ih seen
    · rw [dedupFirstAux, if_neg hx]
      refine List.nodup_cons.mpr ⟨?_, ih (x :: seen)⟩
      intro hmem
      exact ((mem_dedupFirstAux xs (x :: seen) x).mp hmem).2 (List.mem_cons_self _ _)

theorem nodup_dedupFirst {α : Type} [DecidableEq α] (l : List α) :
    (dedupFirst l).Nodup :=
  nodup_dedupFirstAux l []

theorem dedupFirstAux_eq_self {α : Type} [DecidableEq α] (l : List α) :
    ∀ seen : List α, l.Nodup → (∀ a ∈ l, a ∉ seen) → dedupFirstAux seen l = l := by
  induction l with
  | nil => intro seen _ _; rfl
  | cons x xs ih =>
    intro seen hnd hdisj
    have hx : x ∉ seen := hdisj x (List.mem_cons_self _ _)
    rw [dedupFirstAux, if_neg hx]
    rcases List.nodup_cons.mp hnd with ⟨hxxs, hxs⟩
    congr 1
    refine ih (x :: seen) hxs ?_
    intro a ha hs
    rcases List.mem_cons.mp hs with h | h
    · exact hxxs (h ▸ ha)
    · exact hdisj a (List.mem_cons_of_mem _ ha) h

theorem dedupFirst_eq_self {α : Type} [DecidableEq α] (l : List α)
    (h : l.Nodup) : dedupFirst l = l :=
  dedupFirstAux_eq_self l [] h (by simp)

theorem dedupFirst_idem {α : Type} [DecidableEq α] (l : List α) :
    dedupFirst (dedupFirst l) = dedupFirst l :=
  dedupFirst_eq_self _ (nodup_dedupFirst l)

/-! ## Coordinate precision and rounding (gbifcurador.py lines 44-57) -/

/-- Python `str.split('.')` on the character list of a string: the maximal
`'.'`-free fragments, one more fragment than there are separators. -/
def pySplitDot : List Char → List (List Char)
  | [] => [[]]
  | c :: cs =>
    if c = '.' then [] :: pySplitDot cs
    else
      match pySplitDot cs with
      | [] => [[c]]
      | p :: ps => (c :: p) :: ps

/-- `valid_decimals` (gbifcurador.py lines 44-49): render the value with
`str`, split on `'.'`, take part `[1]` (`IndexError` when there is no
separator, caught and turned into `False`), and require its length to be
between 3 and 8. -/
def valid_decimals (value : PyFloat) : Bool :=
  match pySplitDot value.s.data with
  | _ :: decimal_places :: _ =>
      decide (3 ≤ decimal_places.length ∧ decimal_places.length ≤ 8)
  | _ => false

/-- Round a rational to the nearest integer with the half-even tie rule of
`numpy.round`. -/
def roundHalfEven (x : ℚ) : ℤ :=
  if x - ⌊x⌋ < 1/2 then ⌊x⌋
  else if 1/2 < x - ⌊x⌋ then ⌊x⌋ + 1
  else if ⌊x⌋ % 2 = 0 then ⌊x⌋ else ⌊x⌋ + 1

theorem floor_le_roundHalfEven (x : ℚ) : ⌊x⌋ ≤ roundHalfEven x := by
  unfold roundHalfEven
  split_ifs <;> omega

theorem roundHalfEven_le_ceil (x : ℚ) : roundHalfEven x ≤ ⌈x⌉ := by
  unfold roundHalfEven
  split_ifs with h1 h2 h3
  · exact Int.floor_le_ceil x
  · have hlt : (⌊x⌋ : ℚ) < x := by
      push_neg at h1
      have : (0 : ℚ) < 1/2 := by norm_num
      linarith
    have := Int.lt_ceil.mpr hlt
    omega
  · exact Int.floor_le_ceil x
  · have hlt : (⌊x⌋ : ℚ) < x := by
      push_neg at h1
      have : (0 : ℚ) < 1/2 := by norm_num
      linarith
    have := Int.lt_ceil.mpr hlt
    omega

/-- Decimal rounding to 8 fractional digits, as in
`df['decimalLatitude'].round(8)`. -/
def roundQ8 (q : ℚ) : ℚ :=
  ((roundHalfEven (q * 100000000) : ℤ) : ℚ) / 100000000

theorem roundQ8_le_intCast (q : ℚ) (n : ℤ) (h : q ≤ (n : ℚ)) :
    roundQ8 q ≤ (n : ℚ) := by
  have hE : (0 : ℚ) < 100000000 := by norm_num
  have h1 : q * 100000000 ≤ ((n * 100000000 : ℤ) : ℚ) := by
    push_cast
    exact mul_le_mul_of_nonneg_right h (by norm_num)
  have h2 : roundHalfEven (q * 100000000) ≤ n * 100000000 := by
    have hc := roundHalfEven_le_ceil (q * 100000000)
    have hm := Int.ceil_mono h1
    rw [Int.ceil_intCast] at hm
    omega
  rw [roundQ8, div_le_iff₀ hE]
  exact_mod_cast h2

theorem roundQ8_ge_intCast (q : ℚ) (n : ℤ) (h : (n : ℚ) ≤ q) :
    (n : ℚ) ≤ roundQ8 q := by
  have hE : (0 : ℚ) < 100000000 := by norm_num
  have h1 : ((n * 100000000 : ℤ) : ℚ) ≤ q * 100000000 := by
    push_cast
    exact mul_le_mul_of_nonneg_right h (by norm_num)
  have h2 : n * 100000000 ≤ roundHalfEven (q * 100000000) := by
    have hf := floor_le_roundHalfEven (q * 100000000)
    have hm := Int.floor_mono h1
    rw [Int.floor_intCast] at hm
    omega
  rw [roundQ8, le_div_iff₀ hE]
  exact_mod_cast h2

/-! ## Coordinate & date validation (`validate_data`, gbifcurador.py 37-74) -/

/-- `pd.to_datetime(date, errors='coerce')` applied to a cell, with the
parser for raw textual values supplied as the oracle `parse` (`none` models a
value that coerces to `NaT`). -/
def to_datetime (parse : String → Option Int) : DateVal → Option Int
  | DateVal.raw s => parse s
  | DateVal.ts d => some d
  | DateVal.nat => none

/-- `is_valid_date` (gbifcurador.py lines 61-68): coerce the cell to a
datetime; if the result is truthy (`NaT` is falsy) and lies in
`[min_date, max_date]`, return it, else return `NaT`. -/
def is_valid_date (parse : String → Option Int) (min_date max_date : Int)
    (date : DateVal) : DateVal :=
  match to_datetime parse date with
  | some d => if min_date ≤ d ∧ d ≤ max_date then DateVal.ts d else DateVal.nat
  | none => DateVal.nat

/-- The combined coordinate-range and precision predicate of gbifcurador.py
lines 51-54: both coordinates in range and both passing `valid_decimals`. -/
def coordOK (r : Row) : Bool :=
  decide (-90 ≤ r.decimalLatitude.q ∧ r.decimalLatitude.q ≤ 90) &&
  decide (-180 ≤ r.decimalLongitude.q ∧ r.decimalLongitude.q ≤ 180) &&
  valid_decimals r.decimalLatitude &&
  valid_decimals r.decimalLongitude

/-- `.round(8)` on a float cell: the value is rounded to 8 decimal places and
the new float's rendering is produced by the float-to-string oracle
`render`. -/
def round8 (render : ℚ → String) (x : PyFloat) : PyFloat :=
  ⟨render (roundQ8 x.q), roundQ8 x.q⟩

/-- The per-row effect of gbifcurador.py lines 56-57: round both coordinates
to 8 decimal places. -/
def coordTransform (render : ℚ → String) (r : Row) : Row :=
  { r with decimalLatitude := round8 render r.decimalLatitude,
           decimalLongitude := round8 render r.decimalLongitude }

/-- The dataset after the coordinate filter and rounding of gbifcurador.py
lines 51-57. -/
def coordinate_filtered (render : ℚ → String) (df : List Row) : List Row :=
  (df.filter coordOK).map (coordTransform render)

/-- The per-row effect of gbifcurador.py line 70: replace `eventDate` by
`is_valid_date` of it. -/
def dateTransform (parse : String → Option Int) (min_date max_date : Int)
    (r : Row) : Row :=
  { r with eventDate := is_valid_date parse min_date max_date r.eventDate }

/-- The dataset after additionally applying the date rewrite and the
not-null filter of gbifcurador.py lines 70-71. -/
def date_filtered (parse : String → Option Int) (render : ℚ → String)
    (min_date max_date : Int) (df : List Row) : List Row :=
  ((coordinate_filtered render df).map (dateTransform parse min_date max_date)).filter
    (fun r => decide (r.eventDate ≠ DateVal.nat))

/-- `validate_data` (gbifcurador.py lines 37-74): keep rows passing the
coordinate-range and precision checks, round surviving coordinates to 8
decimals, then replace `eventDate` by `is_valid_date` of it and keep the
non-null rows.  Returns the filtered rows together with
`(initial_count, coord_valid_count, date_valid_count)`. -/
def validate_data (parse : String → Option Int) (render : ℚ → String)
    (min_date max_date : Int) (df : List Row) :
    List Row × Nat × Nat × Nat :=
  (date_filtered parse render min_date max_date df,
   df.length,
   (coordinate_filtered render df).length,
   (date_filtered parse render min_date max_date df).length)

/-! ## Initial cleaning (gbifcurador.py 28-35) -/

/-- `initial_cleaning`: select the nine curated columns (the `core`
projection of a raw record) and drop fully identical rows keeping the first
occurrence. -/
def initial_cleaning (df : List RawRecord) : List Row :=
  dedupFirst (df.map RawRecord.core)

/-! ## Paginated fetch (`fetch_all_gbif_data`, gbifcurador.py 8-26)

The GBIF occurrence search is the oracle `search`, giving the list of
records returned for a request at a given offset.  The `while True` loop is
bounded by `fuel`. -/

/-- The pagination loop body: request at `off`; stop on an empty result,
else append the page and continue at `off + limit`. -/
def fetchPages {α : Type} (search : Nat → List α) (limit : Nat) :
    Nat → Nat → List α
  | 0, _ => []
  | fuel + 1, off =>
    if (search off).isEmpty then []
    else search off ++ fetchPages search limit fuel (off + limit)

/-- The offsets at which the pagination loop issues requests (one entry per
call to the occurrence-search service, including the final empty request). -/
def fetchOffsets {α : Type} (search : Nat → List α) (limit : Nat) :
    Nat → Nat → List Nat
  | 0, _ => []
  | fuel + 1, off =>
    if (search off).isEmpty then [off]
    else off :: fetchOffsets search limit fuel (off + limit)

/-- Python `str.replace(' ', '%20')` on a character list: every space is
replaced by the three characters `%20`. -/
def replaceSpace : List Char → List Char
  | [] => []
  | c :: cs =>
    if c = ' ' then '%' :: '2' :: '0' :: replaceSpace cs
    else c :: replaceSpace cs

/-- `fetch_all_gbif_data`: all records concatenated in request order, plus
the search URL with every space of the species name replaced by `%20`. -/
def fetch_all_gbif_data {α : Type} (search : Nat → List α)
    (species_name : String) (limit_per_request fuel : Nat) : List α × String :=
  (fetchPages search limit_per_request fuel 0,
   "https://www.gbif.org/occurrence/search?scientificName=" ++
     String.mk (replaceSpace species_name.data))

/-! ## Georeferencing validation (gbifcurador.py 96-116) -/

/-- Outcome of one Nominatim reverse lookup: a normal return (with `none`
modelling a `None` location) or a `GeocoderTimedOut` exception. -/
inductive GeoResult where
  | ok (location : Option String)
  | timeout
  deriving DecidableEq

/-- `geocode_point` (gbifcurador.py lines 103-110): one reverse lookup with
timeout 10; `True` iff it returns a truthy location, a timeout is caught and
yields `False`. -/
def geocode_point (reverse : PyFloat → PyFloat → Nat → GeoResult)
    (lat lon : PyFloat) : Bool :=
  match reverse lat lon 10 with
  | GeoResult.ok (some _) => true
  | GeoResult.ok none => false
  | GeoResult.timeout => false

/-- `validate_georeferencing` (gbifcurador.py lines 96-116): keep exactly the
rows whose coordinates geocode successfully. -/
def validate_georeferencing (reverse : PyFloat → PyFloat → Nat → GeoResult)
    (df : List Row) : List Row :=
  df.filter (fun row => geocode_point reverse row.decimalLatitude row.decimalLongitude)

/-! ## Taxonomic validation (gbifcurador.py 76-94) -/

/-- The backbone service's answer for a name: the match classification and
the usage key (read only when the classification is not `NONE`). -/
structure BackboneMatch where
  matchType : String
  usageKey : Int
  deriving DecidableEq

/-- `validate_taxonomic_name` (gbifcurador.py lines 76-83): the usage key if
the match classification is not `NONE`, else `None`. -/
def validate_taxonomic_name (backbone : String → BackboneMatch)
    (name : String) : Option Int :=
  if (backbone name).matchType ≠ "NONE" then some (backbone name).usageKey
  else none

/-- Python truthiness of an optional integer: `None` and `0` are falsy. -/
def pyTruthyOptInt : Option Int → Bool
  | none => false
  | some n => decide (n ≠ 0)

/-- The `valid_species` list built by the loop of gbifcurador.py lines
89-92: the distinct species names (first-seen order, via `Series.unique`)
whose backbone lookup returns a truthy value. -/
def valid_species_list (backbone : String → BackboneMatch)
    (df : List Row) : List String :=
  (dedupFirst (df.map Row.species)).filter
    (fun name => pyTruthyOptInt (validate_taxonomic_name backbone name))

/-- `taxonomic_validation` (gbifcurador.py lines 85-94): keep the rows whose
species is in `valid_species`, and return the number of valid names. -/
def taxonomic_validation (backbone : String → BackboneMatch)
    (df : List Row) : List Row × Nat :=
  (df.filter (fun r => decide (r.species ∈ valid_species_list backbone df)),
   (valid_species_list backbone df).length)

/-! ## Enrichment (gbifcurador.py 118-123) -/

/-- `enrich_data`: stamp the constant `dataSource = "GBIF"` column on every
row. -/
def enrich_data (df : List Row) : List EnrichedRow :=
  df.map (fun r => (r, "GBIF"))

/-! ## DataFrame construction and the full pipeline (gbifcurador.py 125-168) -/

/-- A loaded shapefile: the boundary polygons plus the declared coordinate
reference system. -/
structure ShpFrame (Poly : Type) where
  polys : List Poly
  crs : Option String

/-- `validate_points_within_shapefile` (vsSHP_BUFFER.py lines 13-27): build
points `(decimalLongitude, decimalLatitude)`, align the CRS label (the point
frame is created without one, so a differing shapefile CRS is copied over by
`set_crs(..., allow_override=True)` without transforming coordinates), and
flag each row with whether any boundary polygon contains its point.  Returns
the flagged rows and the resulting CRS label. -/
def validate_points_within_shapefile {Poly : Type}
    (contains : Poly → ℚ × ℚ → Bool) (df : List Row) (shp : ShpFrame Poly) :
    List (Row × Bool) × Option String :=
  (df.map (fun row =>
      (row, shp.polys.any (fun p =>
        contains p (row.decimalLongitude.q, row.decimalLatitude.q)))),
   if (none : Option String) ≠ shp.crs then shp.crs else none)

/-! ## Supporting lemmas -/

theorem pyTruthy_validate_iff (backbone : String → BackboneMatch) (name : String) :
    pyTruthyOptInt (validate_taxonomic_name backbone name) = true ↔
      (backbone name).matchType ≠ "NONE" ∧ (backbone name).usageKey ≠ 0 := by
  by_cases h : (backbone name).matchType ≠ "NONE"
  · rw [validate_taxonomic_name, if_pos h]
    simp [pyTruthyOptInt, h]
  · rw [validate_taxonomic_name, if_neg h]
    simp [pyTruthyOptInt, h]

theorem mem_taxonomic_validation (backbone : String → BackboneMatch)
    (df : List Row) (r : Row) :
    r ∈ (taxonomic_validation backbone df).1 ↔
      r ∈ df ∧ ((backbone r.species).matchType ≠ "NONE" ∧
        (backbone r.species).usageKey ≠ 0) := by
  rw [taxonomic_validation]
  rw [List.mem_filter]
  simp only [decide_eq_true_eq]
  constructor
  · rintro ⟨hdf, hv⟩
    rcases List.mem_filter.mp hv with ⟨-, hval⟩
    exact ⟨hdf, (pyTruthy_validate_iff backbone r.species).mp hval⟩
  · rintro ⟨hdf, hcond⟩
    refine ⟨hdf, List.mem_filter.mpr
      ⟨?_, (pyTruthy_validate_iff backbone r.species).mpr hcond⟩⟩
    rw [mem_dedupFirst]
    exact List.mem_map.mpr ⟨r, hdf, rfl⟩

theorem geocode_point_iff (reverse : PyFloat → PyFloat → Nat → GeoResult)
    (lat lon : PyFloat) :
    geocode_point reverse lat lon = true ↔
      ∃ loc, reverse lat lon 10 = GeoResult.ok (some loc) := by
  cases hrev : reverse lat lon 10 with
  | ok o =>
    cases o with
    | some l => simp [geocode_point, hrev]
    | none => simp [geocode_point, hrev]
  | timeout => simp [geocode_point, hrev]

theorem fetch_loop_spec {α : Type} (search : Nat → List α) (limit : Nat) :
    ∀ (k fuel off : Nat), k < fuel →
      (∀ i, i < k → search (off + i * limit) ≠ []) →
      search (off + k * limit) = [] →
      fetchPages search limit fuel off =
        ((List.range k).map (fun i => search (off + i * limit))).flatten ∧
      fetchOffsets search limit fuel off =
        (List.range (k + 1)).map (fun i => off + i * limit) := by
  intro k
  induction k with
  | zero =>
    intro fuel off hfuel _ hempty
    obtain ⟨f, rfl⟩ : ∃ f, fuel = f + 1 := ⟨fuel - 1, by omega⟩
    have hs : search off = [] := by simpa using hempty
    constructor
    · simp [fetchPages, hs]
    · simp [fetchOffsets, hs, List.range_succ]
  | succ k ih =>
    intro fuel off hfuel hne hempty
    obtain ⟨f, rfl⟩ : ∃ f, fuel = f + 1 := ⟨fuel - 1, by omega⟩
    have h0 : search off ≠ [] := by
      have := hne 0 (Nat.succ_pos k)
      simpa using this
    have hrec := ih f (off + limit) (by omega)
      (fun i hi => by
        have h := hne (i + 1) (by omega)
        have harith : off + (i + 1) * limit = off + limit + i * limit := by ring
        rwa [harith] at h)
      (by
        have harith : off + (k + 1) * limit = off + limit + k * limit := by ring
        rwa [harith] at hempty)
    have hne0 : (search off).isEmpty = false := by
      cases h : search off with
      | nil => exact absurd h h0
      | cons a as => rfl
    constructor
    · rw [fetchPages, hne0]
      simp only [Bool.false_eq_true, if_false]
      rw [hrec.1, List.range_succ_eq_map]
      simp only [List.map_cons, List.map_map, List.flatten_cons]
      congr 1
      · congr 1
        omega
      · congr 1
        refine List.map_congr_left ?_
        intro i _
        simp only [Function.comp_apply, Nat.succ_eq_add_one]
        congr 1
        ring
    · rw [fetchOffsets, hne0]
      simp only [Bool.false_eq_true, if_false]
      rw [List.range_succ_eq_map, hrec.2]
      simp only [List.map_cons, List.map_map]
      congr 1
      · omega
      · refine List.map_congr_left ?_
        intro i _
        simp only [Function.comp_apply, Nat.succ_eq_add_one]
        ring

/-- Turns an iff with `= true` on the left into an equation with `decide`. -/
theorem bool_eq_decide {b : Bool} {p : Prop} [Decidable p]
    (h : b = true ↔ p) : b = decide p := by
  by_cases hp : p
  · rw [decide_eq_true hp]
    exact h.mpr hp
  · rw [decide_eq_false hp]
    cases hb : b
    · rfl
    · exact absurd (h.mp hb) hp

/-! ## Concrete fixtures -/

/-- A well-formed occurrence row (coordinates with 3 decimals, raw date). -/
def row0 : Row :=
  { species := "Panthera onca"
    decimalLatitude := ⟨"12.345", mkRat 12345 1000⟩
    decimalLongitude := ⟨"-70.123", mkRat (-70123) 1000⟩
    country := "BR"
    eventDate := DateVal.raw "2020-06-15"
    basisOfRecord := "HUMAN_OBSERVATION"
    institutionCode := "MNHN"
    identificationID := "id-1"
    identifiedBy := "A. Naturalist" }

/-- `row0` after its event date has been parsed to day number 18428. -/
def row0dated : Row := { row0 with eventDate := DateVal.ts 18428 }

/-- A date parser that recognises `row0`'s raw event date. -/
def parse0 : String → Option Int := fun s =>
  if s = "2020-06-15" then some 18428 else none

/-- A float renderer agreeing with Python `str` on `row0`'s coordinates. -/
def render0 : ℚ → String := fun q =>
  if q = mkRat 12345 1000 then "12.345"
  else if q = mkRat (-70123) 1000 then "-70.123"
  else "0.0"

/-- A backbone whose matches are exact but carry usage key `0`. -/
def backbone0 : String → BackboneMatch := fun _ => ⟨"EXACT", 0⟩

/-- A reverse geocoder that always times out. -/
def revTimeout : PyFloat → PyFloat → Nat → GeoResult := fun _ _ _ =>
  GeoResult.timeout

/-- A reverse geocoder that always finds a location. -/
def revOk : PyFloat → PyFloat → Nat → GeoResult := fun _ _ _ =>
  GeoResult.ok (some "somewhere")

/-- An occurrence search returning pages of 5000, 5000 and 1200 records at
offsets 0, 5000 and 10000, and nothing elsewhere. -/
def search3 : Nat → List Unit := fun off =>
  if off = 0 then List.replicate 5000 ()
  else if off = 5000 then List.replicate 5000 ()
  else if off = 10000 then List.replicate 1200 ()
  else []

/-- An occurrence search that never returns records. -/
def searchEmpty : Nat → List RawRecord := fun _ => []

/-! ## The claims -/

/-- Spec-side reading of the precision rule: the number of characters (for a
numeric rendering: digits) standing after the first decimal separator, up to
the following separator or the end; `none` when there is no separator. -/
def decimalsAfterSeparator (s : String) : Option Nat :=
  match pySplitDot s.data with
  | _ :: d :: _ => some d.length
  | _ => none

/-- C2: the precision check passes a coordinate value iff the digit count
after the decimal separator of its default textual rendering is between 3
and 8 inclusive; a rendering without separator fails; `12.345` (3 decimals)
and `12.12345678` (8) pass while `12.3` (1), `12` (0) and `12.123456789`
(9) fail; and the combined coordinate predicate applies the rule
independently to `decimalLatitude` and `decimalLongitude`. -/
theorem C2_valid_decimals_contract :
    (∀ v : PyFloat, valid_decimals v = true ↔
       ∃ n, decimalsAfterSeparator v.s = some n ∧ 3 ≤ n ∧ n ≤ 8) ∧
    (∀ v : PyFloat, decimalsAfterSeparator v.s = none → valid_decimals v = false) ∧
    valid_decimals ⟨"12.345", mkRat 12345 1000⟩ = true ∧
    valid_decimals ⟨"12.12345678", mkRat 1212345678 100000000⟩ = true ∧
    valid_decimals ⟨"12.3", mkRat 123 10⟩ = false ∧
    valid_decimals ⟨"12", 12⟩ = false ∧
    valid_decimals ⟨"12.123456789", mkRat 12123456789 1000000000⟩ = false ∧
    (∀ r : Row, coordOK r = true →
       valid_decimals r.decimalLatitude = true ∧
       valid_decimals r.decimalLongitude = true) := by
  refine ⟨?_, ?_, by decide, by decide, by decide, by decide, by decide, ?_⟩
  · intro v
    cases h : pySplitDot v.s.data with
    | nil => simp [valid_decimals, decimalsAfterSeparator, h]
    | cons a t =>
      cases t with
      | nil => simp [valid_decimals, decimalsAfterSeparator, h]
      | cons d t2 => simp [valid_decimals, decimalsAfterSeparator, h]
  · intro v hnone
    cases h : pySplitDot v.s.data with
    | nil => simp [valid_decimals, h]
    | cons a t =>
      cases t with
      | nil => simp [valid_decimals, h]
      | cons d t2 =>
        rw [decimalsAfterSeparator, h] at hnone
        exact Option.noConfusion hnone
  · intro r h
    rw [coordOK] at h
    simp only [Bool.and_eq_true] at h
    exact ⟨h.1.2, h.2⟩

/-- `row0` passes the combined coordinate-range and precision predicate. -/
theorem coordOK_row0 : coordOK row0 = true := by
  rw [coordOK]
  simp only [Bool.and_eq_true, decide_eq_true_eq]
  refine ⟨⟨⟨?_, ?_⟩, by decide⟩, by decide⟩
  · show -90 ≤ mkRat 12345 1000 ∧ mkRat 12345 1000 ≤ 90
    rw [Rat.mkRat_eq_div]
    norm_num
  · show -180 ≤ mkRat (-70123) 1000 ∧ mkRat (-70123) 1000 ≤ 180
    rw [Rat.mkRat_eq_div]
    norm_num

/-- C2 witness: `row0` passes the combined coordinate predicate, so the
precision rule holds of both its coordinates. -/
theorem C2_valid_decimals_contract_witness :
    valid_decimals row0.decimalLatitude = true ∧
    valid_decimals row0.decimalLongitude = true :=
  C2_valid_decimals_contract.2.2.2.2.2.2.2 row0 coordOK_row0

/-- C8: `initial_cleaning` is idempotent: re-running it on its own output
(a dataset already projected to the nine columns) returns the identical
dataset, and on any already-deduplicated nine-column dataset it is the
identity, preserving first-seen row order. -/
theorem C8_initial_cleaning_idempotent :
    (∀ df : List RawRecord,
       initial_cleaning ((initial_cleaning df).map rawOfRow) =
         initial_cleaning df) ∧
    (∀ l : List Row, l.Nodup → initial_cleaning (l.map rawOfRow) = l) := by
  have hcomp : (RawRecord.core ∘ rawOfRow) = id := rfl
  constructor
  · intro df
    rw [initial_cleaning, List.map_map, hcomp, List.map_id]
    exact dedupFirst_idem _
  · intro l hl
    rw [initial_cleaning, List.map_map, hcomp, List.map_id]
    exact dedupFirst_eq_self l hl

/-- C8 witness: cleaning an already-clean one-row dataset is the identity. -/
theorem C8_initial_cleaning_idempotent_witness :
    initial_cleaning ([row0].map rawOfRow) = [row0] :=
  C8_initial_cleaning_idempotent.2 [row0] (by decide)

/-- C7: the boundary checker maps each input row, in order, to the row
paired with the decision of the existential membership test — `true` iff at
least one boundary polygon contains the row's point (logical OR over all
polygons) — and carries over the shapefile CRS label. -/
theorem C7_points_within_contract (Poly : Type)
    (contains : Poly → ℚ × ℚ → Bool) (df : List Row) (shp : ShpFrame Poly) :
    validate_points_within_shapefile contains df shp =
      (df.map (fun row => (row,
         decide (∃ p, p ∈ shp.polys ∧
           contains p (row.decimalLongitude.q, row.decimalLatitude.q) = true))),
       shp.crs) := by
  rw [validate_points_within_shapefile]
  congr 1
  · refine List.map_congr_left ?_
    intro r _
    congr 1
    exact bool_eq_decide List.any_eq_true
  · cases h : shp.crs with
    | none => simp
    | some c => simp

/-- C6: a row survives `validate_georeferencing` iff its single reverse
lookup with the fixed timeout 10 returns a non-empty location; a lookup
that times out merely drops that row (the exception is caught), and the
remaining rows are still processed. -/
theorem C6_georeferencing_contract
    (reverse : PyFloat → PyFloat → Nat → GeoResult) (df : List Row) :
    (∀ r, r ∈ validate_georeferencing reverse df ↔
       r ∈ df ∧ ∃ loc, reverse r.decimalLatitude r.decimalLongitude 10 =
         GeoResult.ok (some loc)) ∧
    (∀ r, r ∈ df →
       reverse r.decimalLatitude r.decimalLongitude 10 = GeoResult.timeout →
       r ∉ validate_georeferencing reverse df) := by
  have h1 : ∀ r, r ∈ validate_georeferencing reverse df ↔
      r ∈ df ∧ ∃ loc, reverse r.decimalLatitude r.decimalLongitude 10 =
        GeoResult.ok (some loc) := by
    intro r
    rw [validate_georeferencing, List.mem_filter]
    constructor
    · rintro ⟨hdf, hg⟩
      exact ⟨hdf, (geocode_point_iff reverse _ _).mp hg⟩
    · rintro ⟨hdf, hg⟩
      exact ⟨hdf, (geocode_point_iff reverse _ _).mpr hg⟩
  refine ⟨h1, ?_⟩
  intro r _ htime hmem
  rcases (h1 r).mp hmem with ⟨-, loc, hloc⟩
  rw [htime] at hloc
  exact GeoResult.noConfusion hloc

/-- C6 witness: under an always-timing-out geocoder the row is dropped, not
fatal: the function still returns and excludes the row. -/
theorem C6_georeferencing_contract_witness :
    row0 ∉ validate_georeferencing revTimeout [row0] :=
  (C6_georeferencing_contract revTimeout [row0]).2 row0 (List.mem_singleton_self row0) rfl

/-- C10: `taxonomic_validation` keeps a row iff the backbone classification
of its species is not `'NONE'` AND the returned usage key is truthy
(nonzero); in particular a lookup returning usage key `0` is treated as
invalid and its rows are dropped even though the classification is not
`'NONE'`. -/
theorem C10_taxonomic_truthiness :
    (∀ (backbone : String → BackboneMatch) (df : List Row) (r : Row),
       r ∈ (taxonomic_validation backbone df).1 ↔
         r ∈ df ∧ ((backbone r.species).matchType ≠ "NONE" ∧
           (backbone r.species).usageKey ≠ 0)) ∧
    (∀ (backbone : String → BackboneMatch) (df : List Row) (r : Row),
       r ∈ df → (backbone r.species).usageKey = 0 →
       r ∉ (taxonomic_validation backbone df).1) := by
  refine ⟨fun backbone df r => mem_taxonomic_validation backbone df r, ?_⟩
  intro backbone df r _ h0 hmem
  rcases (mem_taxonomic_validation backbone df r).mp hmem with ⟨-, -, hk⟩
  exact hk h0

/-- C10 witness: with a backbone returning usage key `0`, `row0` is
dropped. -/
theorem C10_taxonomic_truthiness_witness :
    row0 ∉ (taxonomic_validation backbone0 [row0]).1 :=
  C10_taxonomic_truthiness.2 backbone0 [row0] row0 (List.mem_singleton_self row0) rfl

/-- C4 as stated is false: with a backbone whose classification is `EXACT`
(not the no-match category) but whose usage key is `0`, the claim deems the
name valid, yet `taxonomic_validation` drops all its rows and reports zero
valid species names. -/
theorem C4_taxonomic_counterexample :
    (backbone0 "Panthera onca").matchType ≠ "NONE" ∧
    taxonomic_validation backbone0 [row0] = ([], 0) := by
  constructor
  · decide
  · decide

/-- C4 (amended): a species name is valid iff the backbone classification
is not `'NONE'` and the returned usage identifier is nonzero (truthy); the
output is the sublist of input rows whose species name is valid, with row
order and content otherwise unchanged, and the returned count is the number
of distinct valid species names. -/
theorem C4_taxonomic_validation_amended (backbone : String → BackboneMatch)
    (df : List Row) :
    ((taxonomic_validation backbone df).1.Sublist df) ∧
    (∀ r, r ∈ (taxonomic_validation backbone df).1 ↔
       r ∈ df ∧ ((backbone r.species).matchType ≠ "NONE" ∧
         (backbone r.species).usageKey ≠ 0)) ∧
    ((taxonomic_validation backbone df).2 =
      ((dedupFirst (df.map Row.species)).filter (fun name =>
         decide ((backbone name).matchType ≠ "NONE" ∧
           (backbone name).usageKey ≠ 0))).length) := by
  refine ⟨?_, fun r => mem_taxonomic_validation backbone df r, ?_⟩
  · show (df.filter
      (fun r => decide (r.species ∈ valid_species_list backbone df))).Sublist df
    exact List.filter_sublist df
  · show (valid_species_list backbone df).length = _
    rw [valid_species_list]
    congr 1
    refine List.filter_congr ?_
    intro name _
    exact bool_eq_decide (pyTruthy_validate_iff backbone name)

/-- Rounding an integer-valued rational is the identity. -/
theorem roundHalfEven_intCast (n : ℤ) : roundHalfEven ((n : ℤ) : ℚ) = n := by
  rw [roundHalfEven, Int.floor_intCast]
  rw [if_pos]
  rw [sub_self]
  norm_num

/-- A rational that is an exact multiple of `10 ^ -8` is unchanged by
rounding to 8 decimal places. -/
theorem roundQ8_eq_self (q : ℚ) (n : ℤ) (h : q * 100000000 = (n : ℚ)) :
    roundQ8 q = q := by
  rw [roundQ8, h, roundHalfEven_intCast, ← h]
  field_simp

theorem roundQ8_row0_lat : roundQ8 (mkRat 12345 1000) = mkRat 12345 1000 :=
  roundQ8_eq_self _ 1234500000 (by rw [Rat.mkRat_eq_div]; norm_num)

theorem roundQ8_row0_lon : roundQ8 (mkRat (-70123) 1000) = mkRat (-70123) 1000 :=
  roundQ8_eq_self _ (-7012300000) (by rw [Rat.mkRat_eq_div]; norm_num)

theorem render0_lat : render0 (mkRat 12345 1000) = "12.345" := by
  unfold render0
  rw [if_pos rfl]

theorem render0_lon : render0 (mkRat (-70123) 1000) = "-70.123" := by
  unfold render0
  rw [if_neg (by decide), if_pos rfl]

/-- On `row0` the coordinate rounding of `validate_data` is the identity. -/
theorem coordTransform_row0 : coordTransform render0 row0 = row0 := by
  rw [coordTransform]
  have hlat : round8 render0 row0.decimalLatitude = row0.decimalLatitude := by
    rw [round8]
    show (⟨render0 (roundQ8 (mkRat 12345 1000)), roundQ8 (mkRat 12345 1000)⟩ : PyFloat) =
      ⟨"12.345", mkRat 12345 1000⟩
    rw [roundQ8_row0_lat, render0_lat]
  have hlon : round8 render0 row0.decimalLongitude = row0.decimalLongitude := by
    rw [round8]
    show (⟨render0 (roundQ8 (mkRat (-70123) 1000)), roundQ8 (mkRat (-70123) 1000)⟩ : PyFloat) =
      ⟨"-70.123", mkRat (-70123) 1000⟩
    rw [roundQ8_row0_lon, render0_lon]
  rw [hlat, hlon]

/-- On `row0` the date rewrite of `validate_data` parses the raw event date
to day number 18428. -/
theorem dateTransform_row0 :
    dateTransform parse0 18000 19000 row0 = row0dated := by
  have h : is_valid_date parse0 18000 19000 row0.eventDate = DateVal.ts 18428 := by
    decide
  rw [dateTransform, h]
  rfl

/-- Concrete run of `validate_data` on the one-row dataset `[row0]`. -/
theorem validate_row0_eval :
    (validate_data parse0 render0 18000 19000 [row0]).1 = [row0dated] := by
  show date_filtered parse0 render0 18000 19000 [row0] = [row0dated]
  rw [date_filtered, coordinate_filtered]
  simp only [List.filter_cons, List.filter_nil, coordOK_row0, if_true,
    List.map_cons, List.map_nil, coordTransform_row0, dateTransform_row0]
  rw [if_pos (by decide)]

/-- C1: every row surviving `validate_data` has latitude in `[-90, 90]`,
longitude in `[-180, 180]`, and an event date that is a parsed calendar date
(day number) lying in `[min_date, max_date]`; the three counts returned
beside the dataset are the input row count before filtering, the row count
after the coordinate+precision filter alone, and the row count after the
date filter is additionally applied. -/
theorem C1_validate_data_contract (parse : String → Option Int)
    (render : ℚ → String) (min_date max_date : Int) (df : List Row) :
    ((validate_data parse render min_date max_date df).2.1 = df.length ∧
     (validate_data parse render min_date max_date df).2.2.1 =
       (df.filter coordOK).length ∧
     (validate_data parse render min_date max_date df).2.2.2 =
       (validate_data parse render min_date max_date df).1.length) ∧
    (∀ r, r ∈ (validate_data parse render min_date max_date df).1 →
       ((-90 : ℚ) ≤ r.decimalLatitude.q ∧ r.decimalLatitude.q ≤ 90) ∧
       ((-180 : ℚ) ≤ r.decimalLongitude.q ∧ r.decimalLongitude.q ≤ 180) ∧
       ∃ d, r.eventDate = DateVal.ts d ∧
         to_datetime parse r.eventDate = some d ∧
         min_date ≤ d ∧ d ≤ max_date) := by
  constructor
  · refine ⟨rfl, ?_, rfl⟩
    show (coordinate_filtered render df).length = (df.filter coordOK).length
    rw [coordinate_filtered, List.length_map]
  · intro r hr
    have hr' : r ∈ date_filtered parse render min_date max_date df := hr
    rw [date_filtered, List.mem_filter] at hr'
    rcases hr' with ⟨hmem, hnn⟩
    rcases List.mem_map.mp hmem with ⟨r1, hr1, rfl⟩
    rw [coordinate_filtered] at hr1
    rcases List.mem_map.mp hr1 with ⟨r0, hr0, rfl⟩
    rcases List.mem_filter.mp hr0 with ⟨-, hco⟩
    rw [coordOK] at hco
    simp only [Bool.and_eq_true, decide_eq_true_eq] at hco
    obtain ⟨⟨⟨hlat, hlon⟩, -⟩, -⟩ := hco
    simp only [decide_eq_true_eq] at hnn
    refine ⟨⟨?_, ?_⟩, ⟨?_, ?_⟩, ?_⟩
    · show (-90 : ℚ) ≤ roundQ8 r0.decimalLatitude.q
      have h := roundQ8_ge_intCast r0.decimalLatitude.q (-90)
        (by exact_mod_cast hlat.1)
      exact_mod_cast h
    · show roundQ8 r0.decimalLatitude.q ≤ (90 : ℚ)
      have h := roundQ8_le_intCast r0.decimalLatitude.q 90
        (by exact_mod_cast hlat.2)
      exact_mod_cast h
    · show (-180 : ℚ) ≤ roundQ8 r0.decimalLongitude.q
      have h := roundQ8_ge_intCast r0.decimalLongitude.q (-180)
        (by exact_mod_cast hlon.1)
      exact_mod_cast h
    · show roundQ8 r0.decimalLongitude.q ≤ (180 : ℚ)
      have h := roundQ8_le_intCast r0.decimalLongitude.q 180
        (by exact_mod_cast hlon.2)
      exact_mod_cast h
    · cases ht : to_datetime parse r0.eventDate with
      | none =>
        exfalso
        apply hnn
        show is_valid_date parse min_date max_date r0.eventDate = DateVal.nat
        rw [is_valid_date, ht]
      | some d =>
        by_cases hrange : min_date ≤ d ∧ d ≤ max_date
        · refine ⟨d, ?_, ?_, hrange.1, hrange.2⟩
          · show is_valid_date parse min_date max_date r0.eventDate = DateVal.ts d
            rw [is_valid_date, ht]
            show (if min_date ≤ d ∧ d ≤ max_date then DateVal.ts d else DateVal.nat) =
              DateVal.ts d
            rw [if_pos hrange]
          · have he : (dateTransform parse min_date max_date
                (coordTransform render r0)).eventDate = DateVal.ts d := by
              show is_valid_date parse min_date max_date r0.eventDate = DateVal.ts d
              rw [is_valid_date, ht]
              show (if min_date ≤ d ∧ d ≤ max_date then DateVal.ts d else DateVal.nat) =
                DateVal.ts d
              rw [if_pos hrange]
            rw [he]
            rfl
        · exfalso
          apply hnn
          show is_valid_date parse min_date max_date r0.eventDate = DateVal.nat
          rw [is_valid_date, ht]
          show (if min_date ≤ d ∧ d ≤ max_date then DateVal.ts d else DateVal.nat) =
            DateVal.nat
          rw [if_neg hrange]

/-- C1 witness: the surviving row of the concrete run on `[row0]` satisfies
all three range properties. -/
theorem C1_validate_data_contract_witness :
    ((-90 : ℚ) ≤ row0dated.decimalLatitude.q ∧ row0dated.decimalLatitude.q ≤ 90) ∧
    ((-180 : ℚ) ≤ row0dated.decimalLongitude.q ∧ row0dated.decimalLongitude.q ≤ 180) ∧
    ∃ d, row0dated.eventDate = DateVal.ts d ∧
      to_datetime parse0 row0dated.eventDate = some d ∧
      18000 ≤ d ∧ d ≤ 19000 :=
  (C1_validate_data_contract parse0 render0 18000 19000 [row0]).2 row0dated
    (validate_row0_eval.symm ▸ List.mem_singleton_self row0dated)

/-- C5 fails as stated at the coordinate+date validation stage:
`validate_data` rewrites the surviving row's `eventDate` from the raw value
to its parsed date, so the output record is not, by value, a record of the
stage's input dataset. -/
theorem C5_stage_subset_counterexample :
    (validate_data parse0 render0 18000 19000 [row0]).1 = [row0dated] ∧
    row0dated ∉ [row0] := by
  refine ⟨validate_row0_eval, ?_⟩
  intro h
  have heq : row0dated = row0 := List.mem_singleton.mp h
  have hev : row0dated.eventDate = row0.eventDate := by rw [heq]
  revert hev
  decide

/-- C5 (amended): every stage's output rows arise from rows of its input:
cleaning projects raw records to the nine curated columns and deduplicates;
coordinate+date validation keeps rows up to rounding both coordinates to 8
decimal places and replacing `eventDate` by its parsed value; georeferencing
and taxonomic validation are pure filters; enrichment pairs each row with
the constant `dataSource` value; no stage invents rows. -/
theorem C5_stage_origin_amended :
    (∀ df : List RawRecord, ∀ r ∈ initial_cleaning df, ∃ rr ∈ df, r = rr.core) ∧
    (∀ (parse : String → Option Int) (render : ℚ → String) (a b : Int)
       (df : List Row), ∀ r ∈ (validate_data parse render a b df).1,
       ∃ r0 ∈ df, r = dateTransform parse a b (coordTransform render r0)) ∧
    (∀ (reverse : PyFloat → PyFloat → Nat → GeoResult) (df : List Row),
       ∀ r ∈ validate_georeferencing reverse df, r ∈ df) ∧
    (∀ (backbone : String → BackboneMatch) (df : List Row),
       ∀ r ∈ (taxonomic_validation backbone df).1, r ∈ df) ∧
    (∀ df : List Row, ∀ r ∈ enrich_data df, ∃ r0 ∈ df, r = (r0, "GBIF")) := by
  refine ⟨?_, ?_, ?_, ?_, ?_⟩
  · intro df r hr
    rw [initial_cleaning, mem_dedupFirst] at hr
    rcases List.mem_map.mp hr with ⟨rr, hrr, rfl⟩
    exact ⟨rr, hrr, rfl⟩
  · intro parse render a b df r hr
    have hr' : r ∈ date_filtered parse render a b df := hr
    rw [date_filtered, List.mem_filter] at hr'
    rcases List.mem_map.mp hr'.1 with ⟨r1, hr1, rfl⟩
    rw [coordinate_filtered] at hr1
    rcases List.mem_map.mp hr1 with ⟨r0, hr0, rfl⟩
    exact ⟨r0, (List.mem_filter.mp hr0).1, rfl⟩
  · intro reverse df r hr
    rw [validate_georeferencing, List.mem_filter] at hr
    exact hr.1
  · intro backbone df r hr
    exact ((mem_taxonomic_validation backbone df r).mp hr).1
  · intro df r hr
    rcases List.mem_map.mp hr with ⟨r0, hr0, rfl⟩
    exact ⟨r0, hr0, rfl⟩

/-- C5 witness (amended form): the surviving row of the concrete run arises
from `row0` by the documented per-row rewrite. -/
theorem C5_stage_origin_amended_witness :
    ∃ r0 ∈ [row0],
      row0dated = dateTransform parse0 18000 19000 (coordTransform render0 r0) :=
  C5_stage_origin_amended.2.1 parse0 render0 18000 19000 [row0] row0dated
    (validate_row0_eval.symm ▸ List.mem_singleton_self row0dated)

/-- C3: the pagination loop requests offsets `0, p, 2p, ...`, stops at the
first empty page, and returns the pages' concatenation in request order,
together with the search URL in which every space of the species name is
replaced by the literal `%20`; on page sizes 5000, 5000, 1200 and then an
empty page with `p = 5000` it issues exactly 4 requests at offsets 0, 5000,
10000, 15000 and returns exactly 11200 records. -/
theorem C3_fetch_pagination_contract :
    (∀ (α : Type) (search : Nat → List α) (name : String) (limit k fuel : Nat),
       k < fuel →
       (∀ i, i < k → search (i * limit) ≠ []) →
       search (k * limit) = [] →
       (fetch_all_gbif_data search name limit fuel).1 =
         ((List.range k).map (fun i => search (i * limit))).flatten ∧
       fetchOffsets search limit fuel 0 =
         (List.range (k + 1)).map (fun i => i * limit)) ∧
    (∀ (α : Type) (search : Nat → List α) (name : String) (limit fuel : Nat),
       (fetch_all_gbif_data search name limit fuel).2 =
         "https://www.gbif.org/occurrence/search?scientificName=" ++
           String.mk (replaceSpace name.data)) ∧
    (fetch_all_gbif_data search3 "Panthera onca" 5000 10).1.length = 11200 ∧
    fetchOffsets search3 5000 10 0 = [0, 5000, 10000, 15000] ∧
    (fetch_all_gbif_data search3 "Panthera onca" 5000 10).2 =
      "https://www.gbif.org/occurrence/search?scientificName=Panthera%20onca" := by
  have hs3 := fetch_loop_spec search3 5000 3 10 0 (by norm_num)
    (fun i hi => by interval_cases i <;> decide) (by decide)
  have hlen : (fetch_all_gbif_data search3 "Panthera onca" 5000 10).1.length = 11200 := by
    show (fetchPages search3 5000 10 0).length = 11200
    rw [hs3.1, show List.range 3 = [0, 1, 2] from by decide]
    simp only [List.map_cons, List.map_nil, List.flatten_cons, List.flatten_nil,
      List.length_append, List.length_nil]
    norm_num [search3, List.length_replicate]
  refine ⟨?_, fun α search name limit fuel => rfl, hlen, ?_, by decide⟩
  · intro α search name limit k fuel hf hne hemp
    have hs := fetch_loop_spec search limit k fuel 0 hf
      (fun i hi => by simpa using hne i hi) (by simpa using hemp)
    constructor
    · rw [show (fetch_all_gbif_data search name limit fuel).1 =
        fetchPages search limit fuel 0 from rfl, hs.1]
      congr 1
      refine List.map_congr_left ?_
      intro i _
      rw [Nat.zero_add]
    · rw [hs.2]
      refine List.map_congr_left ?_
      intro i _
      rw [Nat.zero_add]
  · rw [hs3.2]
    decide

/-- C3 witness: the concrete pagination run with pages 5000, 5000, 1200
matches the general contract at `k = 3`. -/
theorem C3_fetch_pagination_contract_witness :
    (fetch_all_gbif_data search3 "Panthera onca" 5000 10).1 =
      ((List.range 3).map (fun i => search3 (i * 5000))).flatten ∧
    fetchOffsets search3 5000 10 0 = (List.range 4).map (fun i => i * 5000) :=
  C3_fetch_pagination_contract.1 Unit search3 "Panthera onca" 5000 3 10
    (by norm_num) (fun i hi => by interval_cases i <;> decide) (by decide)

